import Mathlib

/-!
Shallow embedding of the evidence-aggregation core of the AgenticRAG-AI
repository (`src/backend/rag/query_engine.py`), together with theorems
settling the frozen claims about it.

Modelling conventions:
* Python floats are modelled as exact rationals (`ℚ`); every constant in the
  source (0.1, 0.2, 0.3, 0.7) is exactly representable and all arithmetic in
  the source happens on small ratios of term counts.
* Python strings are Lean `String`s.  `str.lower()` is modelled with
  `Char.toLower` (ASCII case folding), `str.split()` with a split on
  whitespace dropping empty pieces, and the regex `\[(\d+)\]` with an
  explicit scanner over the character list using ASCII digits.
* Fallible collaborators (the three source adapters and the generative
  model) are passed to `query_rag` as `Except String _` values describing
  what the call would return or raise; code wrapped in `try/except` in the
  source becomes a `match` that swallows the `.error` case exactly where the
  source catches, and nowhere else.
-/

deriving instance DecidableEq for Except

/-- Python `needle in hay` (substring containment) on character lists. -/
def containsSub (needle : List Char) : List Char → Bool
  | [] => needle.isEmpty
  | c :: t => needle.isPrefixOf (c :: t) || containsSub needle t

/-- Python `needle in hay` on strings. -/
def strContains (hay needle : String) : Bool :=
  containsSub needle.data hay.data

/-- Python `s.lower()` (ASCII case folding). -/
def pyLower (s : String) : String :=
  String.mk (s.data.map Char.toLower)

/-- Splitter behind `pySplit`: maximal runs of non-whitespace characters
(`cur` is the reversed current run). -/
def pySplitAux (cur : List Char) : List Char → List String
  | [] => if cur.isEmpty then [] else [String.mk cur.reverse]
  | c :: t =>
    if c.isWhitespace then
      if cur.isEmpty then pySplitAux [] t else String.mk cur.reverse :: pySplitAux [] t
    else pySplitAux (c :: cur) t

/-- Python `s.split()` with no argument: split on whitespace runs, no empty
pieces. -/
def pySplit (s : String) : List String :=
  pySplitAux [] s.data

/-- Python `s[:200] + "..." if len(s) > 200 else s`. -/
def truncate200 (s : String) : String :=
  if s.data.length > 200 then String.mk (s.data.take 200) ++ "..." else s

/-- `external_keywords` from `is_external_query` (query_engine.py lines 24-39). -/
def external_keywords : List String :=
  ["weather", "temperature", "climate", "rain", "snow", "sunny", "cloudy", "forecast",
   "news", "today", "current", "latest", "recent", "now", "happening",
   "price", "stock", "market", "bitcoin", "cryptocurrency", "exchange", "trading", "usd", "eur", "dollar",
   "city", "country", "location", "map", "directions", "distance", "tokyo", "london", "paris", "new york",
   "time", "date", "schedule", "calendar", "when",
   "what is", "who is", "how to", "define", "meaning",
   "live", "real-time", "updates", "status", "current status"]

/-- `document_keywords` from `is_external_query` (lines 42-46). -/
def document_keywords : List String :=
  ["document", "pdf", "file", "page", "section", "chapter", "report",
   "uploaded", "this document", "the document", "according to", "mentioned",
   "content", "text", "written", "shows", "describes", "analysis"]

/-- `obvious_external_patterns` from `is_external_query` (lines 59-62). -/
def obvious_external_patterns : List String :=
  ["weather in", "temperature in", "price of", "cost of", "bitcoin", "cryptocurrency",
   "current", "today", "latest", "news about", "what happened", "live"]

/-- `any(keyword in query_lower for keyword in document_keywords)`. -/
def hasDocumentKeyword (q : String) : Bool :=
  document_keywords.any (fun kw => strContains (pyLower q) kw)

/-- `any(keyword in query_lower for keyword in external_keywords)`. -/
def hasExternalKeyword (q : String) : Bool :=
  external_keywords.any (fun kw => strContains (pyLower q) kw)

/-- `any(pattern in query_lower for pattern in obvious_external_patterns)`. -/
def hasObviousExternalPattern (q : String) : Bool :=
  obvious_external_patterns.any (fun kw => strContains (pyLower q) kw)

/-- `is_external_query` (query_engine.py lines 21-66): document keywords first
(early `return False`), otherwise external keywords or obvious patterns. -/
def is_external_query (q : String) : Bool :=
  if hasDocumentKeyword q then false
  else hasExternalKeyword q || hasObviousExternalPattern q

/-- `calculate_text_relevance` (query_engine.py lines 68-77): fraction of
lowercase whitespace-delimited query terms occurring as substrings of the
lowercased text; `0` when the query has no terms.  (The unused `threshold`
parameter of the source is dropped.) -/
def calculate_text_relevance (query text : String) : ℚ :=
  let query_terms := pySplit (pyLower query)
  let text_lower := pyLower text
  let nMatches := (query_terms.filter (fun term => strContains text_lower term)).length
  if query_terms.isEmpty then 0 else (nMatches : ℚ) / (query_terms.length : ℚ)

/-- A result of `vectorstore.similarity_search`: page content plus the two
metadata fields read by `query_rag` (`page`, `image_path`); `none` models an
absent metadata key. -/
structure Doc where
  page_content : String
  page : Option String
  image_path : Option String
deriving DecidableEq, Repr

/-- A result of `drive_client.search_and_retrieve`; only the keys read by
`query_rag` (`name`, `content`, `url`, with `.get` defaults `""`). -/
structure DriveFile where
  name : String
  content : String
  url : String
deriving DecidableEq, Repr

/-- A citation dict built by `query_rag` (lines 119-126, 167-176, 194-202).
`none` in `url`/`name`/`image` models a key absent from the dict, so
structural equality coincides with Python dict equality. -/
structure Citation where
  citation : String
  page : String
  image : Option String
  type : String
  url : Option String
  content : String
  name : Option String
  relevance : ℚ
deriving DecidableEq, Repr

/-- The dict returned by `query_rag` (lines 298-313), with the nested
`sources_used` and `relevance_info` dicts flattened into fields. -/
structure RagResult where
  response : String
  citations : List Citation
  pdf_documents : Nat
  google_drive_docs : Nat
  web_search : Nat
  pdf_relevance_score : ℚ
  total_pdf_chunks_found : Nat
  relevant_pdf_chunks : Nat
  relevant_drive_docs : Nat
  web_search_used : Bool
deriving DecidableEq, Repr

/-- The PDF filtering loop (lines 102-107): accumulate `(doc, relevance)`
pairs with relevance `> 0.2` and the running sum of kept relevances. -/
def pdfScan (q : String) (docs : List Doc) : List (Doc × ℚ) × ℚ :=
  docs.foldl
    (fun acc doc =>
      let relevance := calculate_text_relevance q doc.page_content
      if relevance > 0.2 then (acc.1 ++ [(doc, relevance)], acc.2 + relevance) else acc)
    ([], 0)

/-- One PDF citation dict (lines 119-126). -/
def mkPdfCitation (n : Nat) (d : Doc) (r : ℚ) : Citation :=
  { citation := "[" ++ toString n ++ "]",
    page := d.page.getD "Unknown",
    image := d.image_path,
    type := "pdf",
    url := none,
    content := truncate200 d.page_content,
    name := none,
    relevance := r }

/-- The PDF citation loop (lines 116-126): `citation_num = len(citations)+1`. -/
def pdfCits (kept : List (Doc × ℚ)) (init : List Citation) : List Citation :=
  kept.foldl (fun acc p => acc ++ [mkPdfCitation (acc.length + 1) p.1 p.2]) init

/-- Words of the second trigger (line 140). -/
def recency_words : List String :=
  ["latest", "current", "recent", "update", "new", "today", "now"]

/-- Words of the third trigger (line 144). -/
def realtime_words : List String :=
  ["news", "market", "price", "stock", "weather", "event"]

/-- Words of the fourth trigger (line 147). -/
def drive_words : List String :=
  ["document", "file", "report", "my", "our", "company"]

/-- `any(word in user_input.lower() for word in ws)`. -/
def containsAnyWord (q : String) (ws : List String) : Bool :=
  ws.any (fun w => strContains (pyLower q) w)

/-- The source-selection step (lines 131-149), returning
`(use_web_search, use_drive_search)`.  The source is an `if/elif` chain. -/
def selectSources (score : ℚ) (q : String) : Bool × Bool :=
  if score < 0.3 then (true, true)
  else if containsAnyWord q recency_words then (true, true)
  else if containsAnyWord q realtime_words then (true, false)
  else if containsAnyWord q drive_words then (false, true)
  else (false, false)

/-- One Google Drive citation dict (lines 167-176). -/
def mkDriveCitation (n : Nat) (f : DriveFile) (r : ℚ) : Citation :=
  { citation := "[" ++ toString n ++ "]",
    page := "N/A",
    image := none,
    type := "google_drive",
    url := some f.url,
    content := truncate200 f.content,
    name := some f.name,
    relevance := r }

/-- The Google Drive filtering loop (lines 156-176): keep results with
relevance `> 0.1` against `name + " " + content`, appending a citation per
kept result; `cits` is the citation list accumulated so far. -/
def driveScan (q : String) (raw : List DriveFile) (cits : List Citation) :
    List DriveFile × List Citation :=
  raw.foldl
    (fun acc f =>
      let combined_text := f.name ++ " " ++ f.content
      let relevance := calculate_text_relevance q combined_text
      if relevance > 0.1 then
        (acc.1 ++ [f], acc.2 ++ [mkDriveCitation (acc.2.length + 1) f relevance])
      else acc)
    ([], cits)

/-- The single web citation dict (lines 194-202). -/
def mkWebCitation (n : Nat) (w : String) (r : ℚ) : Citation :=
  { citation := "[" ++ toString n ++ "]",
    page := "N/A",
    image := none,
    type := "web",
    url := some "https://duckduckgo.com",
    content := truncate200 w,
    name := none,
    relevance := r }

/-- The web-search step (lines 182-209): `try`/`except` around the adapter
call (`.error` is swallowed, line 207), empty result is falsy, a nonempty
block is kept only with relevance `> 0.1`; returns
`(web_context, citations)`. -/
def webStep (q : String) (webRes : Except String String) (useWeb : Bool)
    (cits : List Citation) : String × List Citation :=
  if useWeb then
    match webRes with
    | .ok web_results =>
      if web_results ≠ "" then
        let web_relevance := calculate_text_relevance q web_results
        if web_relevance > 0.1 then
          (web_results, cits ++ [mkWebCitation (cits.length + 1) web_results web_relevance])
        else ("", cits)
      else ("", cits)
    | .error _ => ("", cits)
  else ("", cits)

/-- The low-relevance priority note (line 225). -/
def focusExternalNote : String :=
  "Note: This query appears to be outside the scope of the uploaded PDF content. Focus on external sources (Google Drive and web search) for the answer."

/-- The high-relevance priority note (line 227). -/
def pdfPrimaryNote : String :=
  "Note: This query is well-covered by the PDF content. Use PDF information as the primary source, supplemented by external sources if needed."

/-- The middle-band priority note (line 229). -/
def combineAllNote : String :=
  "Note: This query partially relates to the PDF content. Combine information from all sources appropriately."

/-- The priority-note banding (lines 223-229). -/
def sourcePriorityNote (score : ℚ) : String :=
  if score < 0.3 then focusExternalNote
  else if score > 0.7 then pdfPrimaryNote
  else combineAllNote

/-- The ASCII apostrophe (the fallback message of the source contains one). -/
def apostropheChar : Char := Char.ofNat 39

/-- The fallback answer substituted when the LLM raises (line 277). -/
def fallbackMessage (n : Nat) : String :=
  "I found relevant information from " ++ toString n ++
    " sources, but couldn" ++ String.singleton apostropheChar ++
    "t generate a complete response. Please try rephrasing your question."

/-- Splits a leading run of ASCII digits off a character list. -/
def digitRun : List Char → List Char × List Char
  | [] => ([], [])
  | c :: t =>
    if c.isDigit then
      let p := digitRun t
      (c :: p.1, p.2)
    else ([], c :: t)

theorem digitRun_rest_length : ∀ l : List Char, (digitRun l).2.length ≤ l.length
  | [] => Nat.le_refl _
  | c :: t => by
    simp only [digitRun]
    split
    · exact Nat.le_trans (digitRun_rest_length t) (Nat.le_succ _)
    · exact Nat.le_refl _

/-- Decimal digit string to a natural number (Python `int` on the capture of
`\[(\d+)\]`, which is always a nonempty digit string). -/
def parseNat (ds : List Char) : Nat :=
  ds.foldl (fun n c => 10 * n + (c.toNat - 48)) 0

/-- Body of `findMarkers`, structurally recursive on a fuel argument so the
kernel can evaluate it.  Each step consumes at least one character
(`digitRun_rest_length` bounds the jump past a match), so fuel equal to the
text length never runs out. -/
def findMarkersAux : Nat → List Char → List Nat
  | 0, _ => []
  | _, [] => []
  | fuel + 1, c :: t =>
    if c = '[' then
      match digitRun t with
      | ([], _) => findMarkersAux fuel t
      | (d :: ds, ']' :: r2) => parseNat (d :: ds) :: findMarkersAux fuel r2
      | (_ :: _, _) => findMarkersAux fuel t
    else findMarkersAux fuel t

/-- `re.findall(r'\[(\d+)\]', text)` followed by `int` on each capture:
scan left to right; at each `[` that is followed by a nonempty digit run and
a `]`, emit the number and resume after the `]` (matches are non-overlapping);
otherwise resume at the next character, exactly as the regex engine does. -/
def findMarkers (l : List Char) : List Nat :=
  findMarkersAux l.length l

/-- The first validation loop (lines 284-291): for each mentioned marker `n`
in order, include `citations[n-1]` if in range and not already included. -/
def validateFirstPass (mentioned : List Nat) (cits : List Citation) : List Citation :=
  mentioned.foldl
    (fun acc n =>
      if 1 ≤ n then
        match cits.get? (n - 1) with
        | some c => if c ∈ acc then acc else acc ++ [c]
        | none => acc
      else acc)
    []

/-- The citation validator (lines 279-296): marker-mentioned citations first
(first-occurrence order, duplicates and out-of-range markers skipped), then
every not-yet-included citation in original order. -/
def validateCitations (answer_text : String) (cits : List Citation) : List Citation :=
  let mentioned := findMarkers answer_text.data
  let firstPass := validateFirstPass mentioned cits
  cits.foldl (fun acc c => if c ∈ acc then acc else acc ++ [c]) firstPass

/-- The Google Drive step (lines 151-179): skipped unless `use_drive_search`;
the adapter call sits inside `try`/`except` (line 178), so `.error` yields an
empty contribution; returns `(drive_results, citations)`. -/
def driveStep (q : String) (driveRes : Except String (List DriveFile)) (useDrive : Bool)
    (cits : List Citation) : List DriveFile × List Citation :=
  if useDrive then
    match driveRes with
    | .ok raw => driveScan q raw cits
    | .error _ => ([], cits)
  else ([], cits)

/-- The intermediate state of one `query_rag` run after evidence aggregation
(before the LLM call): the values of the locals `rag_docs`, `relevant_docs`,
`pdf_relevance_score`, `drive_results`, `web_context`, `citations`. -/
structure AggState where
  rag_docs : List Doc
  relevant_docs : List (Doc × ℚ)
  pdf_relevance_score : ℚ
  drive_results : List DriveFile
  web_context : String
  citations : List Citation
deriving DecidableEq, Repr

/-- The evidence-aggregation part of `query_rag` (lines 90-220) given the
document chunks the index returned (`[]` when the query is external and the
index is never called).  The Drive adapter call sits inside `try`/`except`
(lines 155-179), so its `.error` yields an empty contribution. -/
def aggregate (q : String) (docs : List Doc) (driveRes : Except String (List DriveFile))
    (webRes : Except String String) : AggState :=
  let scan := pdfScan q docs
  let relevant_docs := scan.1
  let pdf_relevance_score :=
    if relevant_docs.isEmpty then 0 else scan.2 / (relevant_docs.length : ℚ)
  let cits1 := pdfCits relevant_docs []
  let flags := selectSources pdf_relevance_score q
  let driveOut := driveStep q driveRes flags.2 cits1
  let webOut := webStep q webRes flags.1 driveOut.2
  { rag_docs := docs,
    relevant_docs := relevant_docs,
    pdf_relevance_score := pdf_relevance_score,
    drive_results := driveOut.1,
    web_context := webOut.1,
    citations := webOut.2 }

/-- `query_rag` (lines 79-313).  The adapter and LLM parameters carry what
each collaborator call would return or raise.  The document-index call
(line 100) is made only when the query is not external and is NOT wrapped in
`try`/`except`, so its `.error` propagates out of the function; the Drive,
web and LLM calls are each wrapped, with the handlers modelled inside
`aggregate`, `webStep` and the `llmRes` match below.
`buildResult` is the body of `query_rag` after the document-index call
succeeded (or was skipped): aggregation, LLM call with fallback (lines
272-277), citation validation (lines 279-296) and the result dict
(lines 298-313). -/
def buildResult (user_input : String) (rag_docs : List Doc)
    (driveRes : Except String (List DriveFile)) (webRes : Except String String)
    (llmRes : Except String String) : RagResult :=
  let st := aggregate user_input rag_docs driveRes webRes
  let answer_text :=
    match llmRes with
    | .ok a => a
    | .error _ => fallbackMessage st.citations.length
  { response := answer_text,
    citations := validateCitations answer_text st.citations,
    pdf_documents := st.relevant_docs.length,
    google_drive_docs := st.drive_results.length,
    web_search := if st.web_context = "" then 0 else 1,
    pdf_relevance_score := st.pdf_relevance_score,
    total_pdf_chunks_found := st.rag_docs.length,
    relevant_pdf_chunks := st.relevant_docs.length,
    relevant_drive_docs := st.drive_results.length,
    web_search_used := decide (st.web_context ≠ "") }

def query_rag (user_input : String) (docRes : Except String (List Doc))
    (driveRes : Except String (List DriveFile)) (webRes : Except String String)
    (llmRes : Except String String) : Except String RagResult :=
  match (if is_external_query user_input then Except.ok [] else docRes) with
  | .error e => .error e
  | .ok rag_docs => Except.ok (buildResult user_input rag_docs driveRes webRes llmRes)

/-! ### Helper lemmas about the relevance scorer -/

theorem calculate_text_relevance_nonneg (q t : String) :
    0 ≤ calculate_text_relevance q t := by
  simp only [calculate_text_relevance]
  split
  · exact le_refl 0
  · positivity

theorem calculate_text_relevance_le_one (q t : String) :
    calculate_text_relevance q t ≤ 1 := by
  simp only [calculate_text_relevance]
  split
  · exact zero_le_one
  · rename_i hne
    have hlen : 0 < (pySplit (pyLower q)).length := by
      cases hx : pySplit (pyLower q) with
      | nil => simp [hx] at hne
      | cons a l => simp
    rw [div_le_one (by exact_mod_cast hlen)]
    exact_mod_cast List.length_filter_le _ _

/-! ### Characterization of the PDF filtering loop -/

theorem pdfScan_foldl (q : String) (docs : List Doc) :
    ∀ init : List (Doc × ℚ) × ℚ,
      docs.foldl
        (fun acc doc =>
          let relevance := calculate_text_relevance q doc.page_content
          if relevance > 0.2 then (acc.1 ++ [(doc, relevance)], acc.2 + relevance) else acc)
        init
      = (init.1 ++
          (docs.filter (fun d => decide (calculate_text_relevance q d.page_content > 0.2))).map
            (fun d => (d, calculate_text_relevance q d.page_content)),
         init.2 +
          ((docs.filter (fun d => decide (calculate_text_relevance q d.page_content > 0.2))).map
            (fun d => calculate_text_relevance q d.page_content)).sum) := by
  induction docs with
  | nil => intro init; simp
  | cons d t ih =>
    intro init
    by_cases h : calculate_text_relevance q d.page_content > 0.2
    · simp [List.foldl_cons, List.filter_cons, h, ih, List.append_assoc, add_assoc]
    · simp [List.foldl_cons, List.filter_cons, h, ih]

theorem pdfScan_eq (q : String) (docs : List Doc) :
    pdfScan q docs =
      ((docs.filter (fun d => decide (calculate_text_relevance q d.page_content > 0.2))).map
         (fun d => (d, calculate_text_relevance q d.page_content)),
       ((docs.filter (fun d => decide (calculate_text_relevance q d.page_content > 0.2))).map
         (fun d => calculate_text_relevance q d.page_content)).sum) := by
  unfold pdfScan
  rw [pdfScan_foldl]
  simp

/-! ### Citation markers and the three citation-building loops -/

/-- The dense 1-based marker sequence `"[1]", ..., "[n]"`. -/
def markersList (n : Nat) : List String :=
  (List.range n).map (fun i => "[" ++ toString (i + 1) ++ "]")

theorem markersList_succ (n : Nat) :
    markersList (n + 1) = markersList n ++ ["[" ++ toString (n + 1) ++ "]"] := by
  simp [markersList, List.range_succ]

theorem pdfCits_split (kept : List (Doc × ℚ)) :
    ∀ init : List Citation, ∃ t, pdfCits kept init = init ++ t ∧ ∀ c ∈ t, c.type = "pdf" := by
  induction kept with
  | nil => intro init; exact ⟨[], by simp [pdfCits], by simp⟩
  | cons p rest ih =>
    intro init
    obtain ⟨t, ht, hty⟩ := ih (init ++ [mkPdfCitation (init.length + 1) p.1 p.2])
    refine ⟨mkPdfCitation (init.length + 1) p.1 p.2 :: t, ?_, ?_⟩
    · simpa [pdfCits, List.append_assoc] using ht
    · intro c hc
      rcases List.mem_cons.mp hc with h | h
      · subst h; rfl
      · exact hty c h

theorem pdfCits_markers (kept : List (Doc × ℚ)) :
    ∀ init : List Citation,
      init.map (fun c => c.citation) = markersList init.length →
      (pdfCits kept init).map (fun c => c.citation) = markersList (pdfCits kept init).length := by
  induction kept with
  | nil => intro init h; simpa [pdfCits] using h
  | cons p rest ih =>
    intro init h
    have hstep : (init ++ [mkPdfCitation (init.length + 1) p.1 p.2]).map (fun c => c.citation)
        = markersList (init ++ [mkPdfCitation (init.length + 1) p.1 p.2]).length := by
      simp [h, markersList_succ, mkPdfCitation]
    simpa [pdfCits] using ih (init ++ [mkPdfCitation (init.length + 1) p.1 p.2]) hstep

theorem driveScan_split (q : String) (raw : List DriveFile) :
    ∀ (dr : List DriveFile) (cits : List Citation),
      ∃ t, (raw.foldl
              (fun acc f =>
                let combined_text := f.name ++ " " ++ f.content
                let relevance := calculate_text_relevance q combined_text
                if relevance > 0.1 then
                  (acc.1 ++ [f], acc.2 ++ [mkDriveCitation (acc.2.length + 1) f relevance])
                else acc)
              (dr, cits)).2 = cits ++ t ∧ ∀ c ∈ t, c.type = "google_drive" := by
  induction raw with
  | nil => intro dr cits; exact ⟨[], by simp, by simp⟩
  | cons f rest ih =>
    intro dr cits
    by_cases h : calculate_text_relevance q (f.name ++ " " ++ f.content) > 0.1
    · obtain ⟨t, ht, hty⟩ := ih (dr ++ [f])
        (cits ++ [mkDriveCitation (cits.length + 1) f
          (calculate_text_relevance q (f.name ++ " " ++ f.content))])
      refine ⟨mkDriveCitation (cits.length + 1) f
          (calculate_text_relevance q (f.name ++ " " ++ f.content)) :: t, ?_, ?_⟩
      · simpa [List.foldl_cons, h, List.append_assoc] using ht
      · intro c hc
        rcases List.mem_cons.mp hc with hx | hx
        · subst hx; rfl
        · exact hty c hx
    · obtain ⟨t, ht, hty⟩ := ih dr cits
      exact ⟨t, by simpa [List.foldl_cons, h] using ht, hty⟩

theorem driveScan_markers (q : String) (raw : List DriveFile) :
    ∀ (dr : List DriveFile) (cits : List Citation),
      cits.map (fun c => c.citation) = markersList cits.length →
      ((raw.foldl
          (fun acc f =>
            let combined_text := f.name ++ " " ++ f.content
            let relevance := calculate_text_relevance q combined_text
            if relevance > 0.1 then
              (acc.1 ++ [f], acc.2 ++ [mkDriveCitation (acc.2.length + 1) f relevance])
            else acc)
          (dr, cits)).2).map (fun c => c.citation)
        = markersList ((raw.foldl
            (fun acc f =>
              let combined_text := f.name ++ " " ++ f.content
              let relevance := calculate_text_relevance q combined_text
              if relevance > 0.1 then
                (acc.1 ++ [f], acc.2 ++ [mkDriveCitation (acc.2.length + 1) f relevance])
              else acc)
            (dr, cits)).2).length := by
  induction raw with
  | nil => intro dr cits h; simpa using h
  | cons f rest ih =>
    intro dr cits h
    by_cases hr : calculate_text_relevance q (f.name ++ " " ++ f.content) > 0.1
    · have hstep : (cits ++ [mkDriveCitation (cits.length + 1) f
            (calculate_text_relevance q (f.name ++ " " ++ f.content))]).map (fun c => c.citation)
          = markersList (cits ++ [mkDriveCitation (cits.length + 1) f
            (calculate_text_relevance q (f.name ++ " " ++ f.content))]).length := by
        simp [h, markersList_succ, mkDriveCitation]
      have := ih (dr ++ [f])
        (cits ++ [mkDriveCitation (cits.length + 1) f
          (calculate_text_relevance q (f.name ++ " " ++ f.content))]) hstep
      simpa [List.foldl_cons, hr] using this
    · have := ih dr cits h
      simpa [List.foldl_cons, hr] using this

theorem webStep_split (q : String) (webRes : Except String String) (useWeb : Bool)
    (cits : List Citation) :
    ∃ t, (webStep q webRes useWeb cits).2 = cits ++ t ∧ ∀ c ∈ t, c.type = "web" := by
  unfold webStep
  rcases useWeb with _ | _
  · exact ⟨[], by simp, by simp⟩
  · rcases webRes with e | w
    · exact ⟨[], by simp, by simp⟩
    · by_cases hw : w ≠ ""
      · by_cases hr : calculate_text_relevance q w > 0.1
        · refine ⟨[mkWebCitation (cits.length + 1) w (calculate_text_relevance q w)], ?_, ?_⟩
          · simp [hw, hr]
          · intro c hc
            rcases List.mem_singleton.mp hc with rfl
            rfl
        · exact ⟨[], by simp [hw, hr], by simp⟩
      · exact ⟨[], by simp [hw], by simp⟩

theorem webStep_markers (q : String) (webRes : Except String String) (useWeb : Bool)
    (cits : List Citation)
    (h : cits.map (fun c => c.citation) = markersList cits.length) :
    ((webStep q webRes useWeb cits).2).map (fun c => c.citation)
      = markersList ((webStep q webRes useWeb cits).2).length := by
  unfold webStep
  rcases useWeb with _ | _
  · simpa using h
  · rcases webRes with e | w
    · simpa using h
    · by_cases hw : w ≠ ""
      · by_cases hr : calculate_text_relevance q w > 0.1
        · simp [hw, hr, h, markersList_succ, mkWebCitation]
        · simpa [hw, hr] using h
      · simpa [hw] using h

theorem driveStep_split (q : String) (drR : Except String (List DriveFile)) (useDrive : Bool)
    (cits : List Citation) :
    ∃ t, (driveStep q drR useDrive cits).2 = cits ++ t ∧ ∀ c ∈ t, c.type = "google_drive" := by
  rcases useDrive with _ | _
  · exact ⟨[], by simp [driveStep], by simp⟩
  · rcases drR with e | raw
    · exact ⟨[], by simp [driveStep], by simp⟩
    · obtain ⟨t, ht, hty⟩ := driveScan_split q raw [] cits
      exact ⟨t, by simpa [driveStep, driveScan] using ht, hty⟩

theorem driveStep_markers (q : String) (drR : Except String (List DriveFile)) (useDrive : Bool)
    (cits : List Citation)
    (h : cits.map (fun c => c.citation) = markersList cits.length) :
    ((driveStep q drR useDrive cits).2).map (fun c => c.citation)
      = markersList ((driveStep q drR useDrive cits).2).length := by
  rcases useDrive with _ | _
  · simpa [driveStep] using h
  · rcases drR with e | raw
    · simpa [driveStep] using h
    · have := driveScan_markers q raw [] cits h
      simpa [driveStep, driveScan] using this

theorem driveStep_empty_of_ok_nil (q : String) (useDrive : Bool) (cits : List Citation) :
    driveStep q (Except.ok []) useDrive cits = ([], cits) := by
  rcases useDrive with _ | _ <;> simp [driveStep, driveScan]

theorem driveStep_empty_of_error (q e : String) (useDrive : Bool) (cits : List Citation) :
    driveStep q (Except.error e) useDrive cits = ([], cits) := by
  rcases useDrive with _ | _ <;> simp [driveStep]

theorem webStep_empty_of_ok_nil (q : String) (useWeb : Bool) (cits : List Citation) :
    webStep q (Except.ok "") useWeb cits = ("", cits) := by
  rcases useWeb with _ | _ <;> simp [webStep]

theorem webStep_empty_of_error (q e : String) (useWeb : Bool) (cits : List Citation) :
    webStep q (Except.error e) useWeb cits = ("", cits) := by
  rcases useWeb with _ | _ <;> simp [webStep]

/-- The citation list built by the aggregation phase splits into a PDF block,
then a Google Drive block, then a web block. -/
theorem aggregate_citations_split (q : String) (docs : List Doc)
    (drR : Except String (List DriveFile)) (wR : Except String String) :
    ∃ a b c, (aggregate q docs drR wR).citations = a ++ b ++ c ∧
      (∀ x ∈ a, x.type = "pdf") ∧ (∀ x ∈ b, x.type = "google_drive") ∧
      (∀ x ∈ c, x.type = "web") := by
  unfold aggregate
  dsimp only
  obtain ⟨a, ha, hat⟩ := pdfCits_split (pdfScan q docs).1 []
  obtain ⟨b, hb, hbt⟩ := driveStep_split q drR
    (selectSources (if (pdfScan q docs).1.isEmpty then 0
      else (pdfScan q docs).2 / ((pdfScan q docs).1.length : ℚ)) q).2
    (pdfCits (pdfScan q docs).1 [])
  obtain ⟨c, hc, hct⟩ := webStep_split q wR
    (selectSources (if (pdfScan q docs).1.isEmpty then 0
      else (pdfScan q docs).2 / ((pdfScan q docs).1.length : ℚ)) q).1
    ((driveStep q drR
      (selectSources (if (pdfScan q docs).1.isEmpty then 0
        else (pdfScan q docs).2 / ((pdfScan q docs).1.length : ℚ)) q).2
      (pdfCits (pdfScan q docs).1 [])).2)
  refine ⟨a, b, c, ?_, hat, hbt, hct⟩
  rw [hc, hb, ha]
  simp [List.append_assoc]

/-- The citation list built by the aggregation phase carries the dense
1-based markers `"[1]", ..., "[n]"` in order. -/
theorem aggregate_citations_markers (q : String) (docs : List Doc)
    (drR : Except String (List DriveFile)) (wR : Except String String) :
    (aggregate q docs drR wR).citations.map (fun c => c.citation)
      = markersList (aggregate q docs drR wR).citations.length := by
  unfold aggregate
  dsimp only
  apply webStep_markers
  apply driveStep_markers
  apply pdfCits_markers
  simp [markersList]

/-! ### Helper lemmas about the citation validator -/

theorem validateFirstPass_aux (cits : List Citation) :
    ∀ (ms : List Nat) (acc : List Citation), acc.Nodup → (∀ c ∈ acc, c ∈ cits) →
      (ms.foldl
        (fun acc n =>
          if 1 ≤ n then
            match cits.get? (n - 1) with
            | some c => if c ∈ acc then acc else acc ++ [c]
            | none => acc
          else acc)
        acc).Nodup ∧
      (∀ c ∈ ms.foldl
        (fun acc n =>
          if 1 ≤ n then
            match cits.get? (n - 1) with
            | some c => if c ∈ acc then acc else acc ++ [c]
            | none => acc
          else acc)
        acc, c ∈ cits) := by
  intro ms
  induction ms with
  | nil => intro acc h1 h2; exact ⟨h1, h2⟩
  | cons n rest ih =>
    intro acc h1 h2
    simp only [List.foldl_cons]
    by_cases hn : 1 ≤ n
    · simp only [if_pos hn]
      cases hget : cits.get? (n - 1) with
      | none => exact ih acc h1 h2
      | some c =>
        by_cases hc : c ∈ acc
        · simp only [hget, if_pos hc]
          exact ih acc h1 h2
        · simp only [hget, if_neg hc]
          refine ih (acc ++ [c]) ?_ ?_
          · simp [List.nodup_append, h1, hc]
          · intro x hx
            rcases List.mem_append.mp hx with h | h
            · exact h2 x h
            · rcases List.mem_singleton.mp h with rfl
              exact List.get?_mem hget
    · simp only [if_neg hn]
      exact ih acc h1 h2

theorem validateFirstPass_nodup (ms : List Nat) (cits : List Citation) :
    (validateFirstPass ms cits).Nodup :=
  (validateFirstPass_aux cits ms [] List.nodup_nil (by simp)).1

theorem validateFirstPass_subset (ms : List Nat) (cits : List Citation) :
    ∀ c ∈ validateFirstPass ms cits, c ∈ cits :=
  (validateFirstPass_aux cits ms [] List.nodup_nil (by simp)).2

/-- The second validation loop is append-each-missing; over a duplicate-free
list it is exactly `init ++ filter (· ∉ init)`. -/
theorem appendMissing_eq (l : List Citation) (hl : l.Nodup) :
    ∀ init : List Citation,
      l.foldl (fun acc c => if c ∈ acc then acc else acc ++ [c]) init
        = init ++ l.filter (fun c => decide (c ∉ init)) := by
  induction l with
  | nil => intro init; simp
  | cons c t ih =>
    intro init
    have hct : c ∉ t := (List.nodup_cons.mp hl).1
    have ht : t.Nodup := (List.nodup_cons.mp hl).2
    simp only [List.foldl_cons, List.filter_cons]
    by_cases hc : c ∈ init
    · simp only [if_pos hc, ih ht init, decide_eq_false (by simp [hc] : ¬ c ∉ init)]
      simp
    · simp only [if_neg hc, ih ht (init ++ [c]), decide_eq_true (by simp [hc] : c ∉ init)]
      have hfilter : t.filter (fun x => decide (x ∉ init ++ [c]))
          = t.filter (fun x => decide (x ∉ init)) := by
        apply List.filter_congr
        intro x hx
        have hxc : x ≠ c := fun h => hct (h ▸ hx)
        simp [List.mem_append, hxc]
      rw [hfilter]
      simp [List.append_assoc]

/-- Membership version of the second loop, valid without any nodup
assumption. -/
theorem appendMissing_mem (l : List Citation) :
    ∀ (init : List Citation) (c : Citation),
      c ∈ l.foldl (fun acc c => if c ∈ acc then acc else acc ++ [c]) init
        ↔ (c ∈ init ∨ c ∈ l) := by
  induction l with
  | nil => intro init c; simp
  | cons d t ih =>
    intro init c
    simp only [List.foldl_cons]
    by_cases hd : d ∈ init
    · rw [if_pos hd, ih]
      constructor
      · rintro (h | h)
        · exact Or.inl h
        · exact Or.inr (List.mem_cons_of_mem d h)
      · rintro (h | h)
        · exact Or.inl h
        · rcases List.mem_cons.mp h with rfl | h
          · exact Or.inl hd
          · exact Or.inr h
    · rw [if_neg hd, ih]
      simp only [List.mem_append, List.mem_singleton, List.mem_cons]
      tauto

/-- Without any assumption, the validator output has exactly the members of
its input list. -/
theorem validateCitations_mem (text : String) (cits : List Citation) (c : Citation) :
    c ∈ validateCitations text cits ↔ c ∈ cits := by
  unfold validateCitations
  rw [appendMissing_mem]
  constructor
  · rintro (h | h)
    · exact validateFirstPass_subset _ _ c h
    · exact h
  · exact Or.inr

/-- Over a duplicate-free citation list the validator is a permutation. -/
theorem validateCitations_perm (text : String) (cits : List Citation) (h : cits.Nodup) :
    List.Perm (validateCitations text cits) cits := by
  unfold validateCitations
  rw [appendMissing_eq cits h]
  set v1 := validateFirstPass (findMarkers text.data) cits with hv1
  have hnd : v1.Nodup := validateFirstPass_nodup _ _
  have hsub : ∀ c ∈ v1, c ∈ cits := validateFirstPass_subset _ _
  have hperm1 : List.Perm (cits.filter (fun c => decide (c ∈ v1))) v1 := by
    rw [List.perm_ext_iff_of_nodup (h.filter _) hnd]
    intro a
    simp only [List.mem_filter, decide_eq_true_eq]
    exact ⟨fun hx => hx.2, fun hx => ⟨hsub a hx, hx⟩⟩
  have hsplit : List.Perm
      (cits.filter (fun c => decide (c ∈ v1)) ++ cits.filter (fun c => decide (c ∉ v1))) cits := by
    have := List.filter_append_perm (fun c => decide (c ∈ v1)) cits
    have hneg : (fun (c : Citation) => ! decide (c ∈ v1)) = (fun c => decide (c ∉ v1)) := by
      funext c
      by_cases hc : c ∈ v1 <;> simp [hc]
    rwa [hneg] at this
  exact (hperm1.symm.append_right (cits.filter (fun c => decide (c ∉ v1)))).trans hsplit

theorem query_rag_ok_elim {q : String} {docR : Except String (List Doc)}
    {drR : Except String (List DriveFile)} {wR llmR : Except String String} {r : RagResult}
    (h : query_rag q docR drR wR llmR = Except.ok r) :
    ∃ docs, (if is_external_query q then Except.ok [] else docR) = Except.ok docs ∧
      r = buildResult q docs drR wR llmR := by
  unfold query_rag at h
  cases hx : (if is_external_query q then Except.ok ([] : List Doc) else docR) with
  | error e => rw [hx] at h; cases h
  | ok docs =>
    rw [hx] at h
    exact ⟨docs, rfl, (Except.ok.inj h).symm⟩

/-! ### Sum bounds for the mean-relevance invariant -/

theorem list_sum_gt_of_forall_gt (b : ℚ) :
    ∀ l : List ℚ, l ≠ [] → (∀ x ∈ l, b < x) → b * l.length < l.sum := by
  intro l
  induction l with
  | nil => intro h; exact absurd rfl h
  | cons x t ih =>
    intro _ h
    rcases t with _ | ⟨y, t'⟩
    · simpa using h x (by simp)
    · have ht := ih (by simp) (fun z hz => h z (List.mem_cons_of_mem x hz))
      have hx := h x (by simp)
      simp only [List.sum_cons, List.length_cons] at ht ⊢
      push_cast
      push_cast at ht
      nlinarith

theorem list_sum_le_length (l : List ℚ) (h : ∀ x ∈ l, x ≤ 1) : l.sum ≤ (l.length : ℚ) := by
  induction l with
  | nil => simp
  | cons x t ih =>
    have ht := ih (fun z hz => h z (List.mem_cons_of_mem x hz))
    have hx := h x (by simp)
    simp only [List.sum_cons, List.length_cons]
    push_cast
    linarith

/-! ### Claim C1: combination of simultaneously-true source-selection triggers -/

/-- Modelled from the spec: the union reading of the source-selection policy
asserted by the claim — the enabled `(use_web_search, use_drive_search)`
flags are the union of the flags of every matched trigger. -/
def unionSelectSources (score : ℚ) (q : String) : Bool × Bool :=
  let t1 := decide (score < 0.3)
  let t2 := containsAnyWord q recency_words
  let t3 := containsAnyWord q realtime_words
  let t4 := containsAnyWord q drive_words
  (t1 || t2 || t3, t1 || t2 || t4)

/-- First-match-wins reading: the flags of the first trigger in order that is
true, and `(false, false)` when none is. -/
def firstMatchFlags (score : ℚ) (q : String) : Bool × Bool :=
  (([(decide (score < 0.3), (true, true)),
     (containsAnyWord q recency_words, (true, true)),
     (containsAnyWord q realtime_words, (true, false)),
     (containsAnyWord q drive_words, (false, true))].find?
      (fun p => p.1)).map Prod.snd).getD (false, false)

unseal Rat.mul Rat.inv Rat.add Rat.sub Nat.gcd Rat.ofScientific in
/-- Claim C1, refutation of the union reading: for the query
`"market company"` with `pdf_relevance_score = 1 ≥ 0.3`, the real-time
trigger and the document trigger are both true, yet the code enables web
search only — cloud-file search stays disabled, while the union reading
would enable both. -/
theorem selectSources_union_refuted :
    (0.3 : ℚ) ≤ 1 ∧
    containsAnyWord "market company" recency_words = false ∧
    containsAnyWord "market company" realtime_words = true ∧
    containsAnyWord "market company" drive_words = true ∧
    selectSources 1 "market company" = (true, false) ∧
    unionSelectSources 1 "market company" = (true, true) := by
  refine ⟨by norm_num, by decide, by decide, by decide, by decide, by decide⟩

/-- Claim C1 (amended): the four triggers of the source-selection step are
evaluated as an ordered `if`/`elif` chain, so when several are simultaneously
true the enabled external-source flags are exactly the flags of the FIRST
matched trigger (first-match-wins), not the union of all matched triggers'
flags. -/
theorem selectSources_first_match_wins (score : ℚ) (q : String) :
    selectSources score q = firstMatchFlags score q := by
  unfold selectSources firstMatchFlags
  by_cases h1 : score < 0.3
  · simp [h1, List.find?]
  · cases h2 : containsAnyWord q recency_words
    · cases h3 : containsAnyWord q realtime_words
      · cases h4 : containsAnyWord q drive_words
        · simp [h1, h2, h3, h4, List.find?]
        · simp [h1, h2, h3, h4, List.find?]
      · simp [h1, h2, h3, List.find?]
    · simp [h1, h2, List.find?]

/-! ### Claim C5: document keywords take precedence in the classifier -/

/-- Claim C5: whenever the lowercased query contains a document keyword the
classifier returns not-external, regardless of any external keywords or
obvious-external patterns; and external cues are consulted exactly when no
document keyword is present. -/
theorem classifier_document_precedence (q : String) :
    (hasDocumentKeyword q = true → is_external_query q = false) ∧
    (hasDocumentKeyword q = false →
      is_external_query q = (hasExternalKeyword q || hasObviousExternalPattern q)) := by
  constructor <;> intro h <;> simp [is_external_query, h]

unseal Rat.mul Rat.inv Rat.add Rat.sub Nat.gcd Rat.ofScientific in
/-- Witness for C5: `"document weather today"` contains the document keyword
`"document"` and the external keywords `"weather"`/`"today"`, yet is
classified not-external. -/
theorem classifier_document_precedence_witness :
    hasDocumentKeyword "document weather today" = true ∧
    hasExternalKeyword "document weather today" = true ∧
    is_external_query "document weather today" = false :=
  ⟨by decide, by decide,
    (classifier_document_precedence "document weather today").1 (by decide)⟩

/-! ### Claim C6: the relevance scorer -/

/-- Claim C6: the Relevance Scorer returns the number of lowercase
whitespace-delimited query terms (duplicates counted) occurring as substrings
of the lowercased text, divided by the total number of terms, and `0` for a
zero-term query; the result lies in `[0, 1]`, equals `1` exactly when every
term matches (for a query with at least one term), equals `0` when no term
matches, and is monotonic in the number of matched terms.  The embedding is a
pure Lean function, witnessing determinism and absence of side effects. -/
theorem relevance_scorer_spec (q t : String) :
    calculate_text_relevance q t =
      (if (pySplit (pyLower q)).isEmpty then 0
       else (((pySplit (pyLower q)).filter (fun term => strContains (pyLower t) term)).length : ℚ) /
         ((pySplit (pyLower q)).length : ℚ)) ∧
    0 ≤ calculate_text_relevance q t ∧
    calculate_text_relevance q t ≤ 1 ∧
    (pySplit (pyLower q) ≠ [] →
      (calculate_text_relevance q t = 1 ↔
        ∀ term ∈ pySplit (pyLower q), strContains (pyLower t) term = true)) ∧
    ((∀ term ∈ pySplit (pyLower q), strContains (pyLower t) term = false) →
      calculate_text_relevance q t = 0) ∧
    (∀ t' : String,
      ((pySplit (pyLower q)).filter (fun term => strContains (pyLower t) term)).length ≤
        ((pySplit (pyLower q)).filter (fun term => strContains (pyLower t') term)).length →
      calculate_text_relevance q t ≤ calculate_text_relevance q t') := by
  refine ⟨rfl, calculate_text_relevance_nonneg q t, calculate_text_relevance_le_one q t,
    ?_, ?_, ?_⟩
  · intro hne
    have hn : 0 < (pySplit (pyLower q)).length := List.length_pos.mpr hne
    simp only [calculate_text_relevance]
    rw [if_neg (by simpa [List.isEmpty_iff] using hne)]
    rw [div_eq_one_iff_eq (by exact_mod_cast hn.ne')]
    rw [Nat.cast_inj]
    rw [List.filter_length_eq_length]
  · intro h
    simp only [calculate_text_relevance]
    by_cases he : (pySplit (pyLower q)).isEmpty
    · rw [if_pos he]
    · rw [if_neg he]
      have : (pySplit (pyLower q)).filter (fun term => strContains (pyLower t) term) = [] :=
        List.filter_eq_nil_iff.mpr (fun a ha => by simp [h a ha])
      rw [this]
      simp
  · intro t' hle
    simp only [calculate_text_relevance]
    by_cases he : (pySplit (pyLower q)).isEmpty
    · simp [he]
    · rw [if_neg he, if_neg he]
      have hn : (0 : ℚ) < ((pySplit (pyLower q)).length : ℚ) := by
        have : (pySplit (pyLower q)).length ≠ 0 := by
          simpa [List.isEmpty_iff, List.length_eq_zero] using he
        exact_mod_cast Nat.pos_of_ne_zero this
      have hm : (((pySplit (pyLower q)).filter (fun term => strContains (pyLower t) term)).length : ℚ)
          ≤ (((pySplit (pyLower q)).filter (fun term => strContains (pyLower t') term)).length : ℚ) := by
        exact_mod_cast hle
      exact (div_le_div_iff_of_pos_right hn).mpr hm

unseal Rat.mul Rat.inv Rat.add Rat.sub Nat.gcd Rat.ofScientific in
/-- Witness for C6 at concrete inputs: both terms of `"alpha beta"` occur in
`"ALPHA and beta text"`, giving score exactly 1; and monotonicity applied to
a zero-match text versus a one-match text. -/
theorem relevance_scorer_spec_witness :
    pySplit (pyLower "alpha beta") ≠ [] ∧
    calculate_text_relevance "alpha beta" "ALPHA and beta text" = 1 ∧
    calculate_text_relevance "alpha beta" "nothing" ≤
      calculate_text_relevance "alpha beta" "alpha" :=
  ⟨by decide,
   ((relevance_scorer_spec "alpha beta" "ALPHA and beta text").2.2.2.1 (by decide)).mpr
     (by decide),
   (relevance_scorer_spec "alpha beta" "nothing").2.2.2.2.2 "alpha" (by decide)⟩

/-! ### Claim C8: the prompt composer's priority-note banding -/

/-- Claim C8: the source-priority note is selected solely by banding
`pdf_relevance_score` — strictly below 0.3 gives the focus-on-external note,
strictly above 0.7 the PDF-is-primary note, and every score in `[0.3, 0.7]`
the combine-all-sources note; the three notes are pairwise distinct, so
exactly one note is chosen for every score. -/
theorem sourcePriorityNote_banding (s : ℚ) :
    ((s < 0.3 ∧ sourcePriorityNote s = focusExternalNote) ∨
     (0.7 < s ∧ sourcePriorityNote s = pdfPrimaryNote) ∨
     (0.3 ≤ s ∧ s ≤ 0.7 ∧ sourcePriorityNote s = combineAllNote)) ∧
    focusExternalNote ≠ pdfPrimaryNote ∧
    focusExternalNote ≠ combineAllNote ∧
    pdfPrimaryNote ≠ combineAllNote := by
  refine ⟨?_, by decide, by decide, by decide⟩
  by_cases h1 : s < 0.3
  · exact Or.inl ⟨h1, by simp [sourcePriorityNote, h1]⟩
  · by_cases h2 : 0.7 < s
    · exact Or.inr (Or.inl ⟨h2, by simp [sourcePriorityNote, h1, h2]⟩)
    · exact Or.inr (Or.inr ⟨le_of_not_lt h1, le_of_not_lt h2,
        by simp [sourcePriorityNote, h1, h2]⟩)

/-! ### Claim C7: the document-search phase -/

/-- Claim C7: for a non-external query, `query_rag` keeps exactly the returned
candidates with relevance strictly greater than 0.2 and reports as
`pdf_relevance_score` the arithmetic mean of the kept relevances (0 when none
kept); for an external query the document search is skipped entirely and the
score is 0.  `docs` is the top-k candidate list the Document Index Adapter
returned. -/
theorem document_phase_spec (q : String) (docs : List Doc)
    (drR : Except String (List DriveFile)) (wR llmR : Except String String) (r : RagResult)
    (h : query_rag q (Except.ok docs) drR wR llmR = Except.ok r) :
    (is_external_query q = false →
      r.total_pdf_chunks_found = docs.length ∧
      r.relevant_pdf_chunks =
        (docs.filter (fun d => decide (calculate_text_relevance q d.page_content > 0.2))).length ∧
      r.pdf_relevance_score =
        (if (docs.filter (fun d => decide (calculate_text_relevance q d.page_content > 0.2))).isEmpty
         then 0
         else ((docs.filter (fun d => decide (calculate_text_relevance q d.page_content > 0.2))).map
             (fun d => calculate_text_relevance q d.page_content)).sum /
           (((docs.filter (fun d => decide (calculate_text_relevance q d.page_content > 0.2))).length : ℚ)))) ∧
    (is_external_query q = true →
      r.pdf_relevance_score = 0 ∧ r.total_pdf_chunks_found = 0 ∧
      r.relevant_pdf_chunks = 0 ∧ r.pdf_documents = 0) := by
  obtain ⟨docs', hx, hr⟩ := query_rag_ok_elim h
  constructor
  · intro hext
    rw [hext] at hx
    simp only [Bool.false_eq_true, if_false, Except.ok.injEq] at hx
    subst hx
    subst hr
    refine ⟨rfl, ?_, ?_⟩
    · simp [buildResult, aggregate, pdfScan_eq]
    · simp only [buildResult, aggregate, pdfScan_eq]
      simp [List.isEmpty_iff]
  · intro hext
    rw [hext] at hx
    simp only [if_true, Except.ok.injEq] at hx
    subst hx
    subst hr
    refine ⟨?_, ?_, ?_, ?_⟩ <;> simp [buildResult, aggregate, pdfScan]

/-- The result record of the concrete C7 witness run. -/
def wRes7 : RagResult :=
  ⟨"ans", [mkPdfCitation 1 ⟨"pdf alpha text", some "1", none⟩ 1], 1, 0, 0, 1, 2, 1, 0, false⟩

unseal Rat.mul Rat.inv Rat.add Rat.sub Nat.gcd Rat.ofScientific in
set_option maxRecDepth 10000 in
/-- Witness for C7: the non-external query `"pdf alpha"` with one fully
matching chunk and one irrelevant chunk keeps exactly the matching one and
reports its relevance 1 as the mean. -/
theorem document_phase_spec_witness :
    is_external_query "pdf alpha" = false ∧
    query_rag "pdf alpha" (Except.ok [⟨"pdf alpha text", some "1", none⟩, ⟨"zzz", none, none⟩])
        (Except.ok []) (Except.ok "") (Except.ok "ans") = Except.ok wRes7 ∧
    wRes7.total_pdf_chunks_found = 2 ∧ wRes7.relevant_pdf_chunks = 1 ∧
    wRes7.pdf_relevance_score = 1 := by
  refine ⟨by decide, by decide, ?_⟩
  have := (document_phase_spec "pdf alpha"
    [⟨"pdf alpha text", some "1", none⟩, ⟨"zzz", none, none⟩]
    (Except.ok []) (Except.ok "") (Except.ok "ans") wRes7 (by decide)).1 (by decide)
  refine ⟨this.1.trans (by decide), this.2.1.trans (by decide), this.2.2.trans (by decide)⟩

/-! ### Claim C10: the reachable values of pdf_relevance_score -/

/-- Claim C10: on every successful `query_rag` run the reported
`pdf_relevance_score` is either exactly 0 or strictly greater than 0.2 and at
most 1 — it is the mean of individual relevances that each must exceed 0.2 to
be kept — so no run can ever produce a score in `(0, 0.2]`. -/
theorem pdf_score_gap (q : String) (docRes : Except String (List Doc))
    (drR : Except String (List DriveFile)) (wR llmR : Except String String) (r : RagResult)
    (h : query_rag q docRes drR wR llmR = Except.ok r) :
    r.pdf_relevance_score = 0 ∨
      (0.2 < r.pdf_relevance_score ∧ r.pdf_relevance_score ≤ 1) := by
  obtain ⟨docs, hx, hr⟩ := query_rag_ok_elim h
  subst hr
  have hscore : (buildResult q docs drR wR llmR).pdf_relevance_score =
      (if (pdfScan q docs).1.isEmpty then 0
       else (pdfScan q docs).2 / (((pdfScan q docs).1.length : ℚ))) := rfl
  set F := docs.filter (fun d => decide (calculate_text_relevance q d.page_content > 0.2)) with hF
  have hs1 : (pdfScan q docs).1 = F.map (fun d => (d, calculate_text_relevance q d.page_content)) := by
    rw [pdfScan_eq]
  have hs2 : (pdfScan q docs).2 =
      (F.map (fun d => calculate_text_relevance q d.page_content)).sum := by
    rw [pdfScan_eq]
  rw [hscore, hs1, hs2]
  by_cases hne : F.isEmpty
  · left
    have hFnil : F = [] := List.isEmpty_iff.mp hne
    simp [hFnil]
  · right
    have hFne : F ≠ [] := by simpa [List.isEmpty_iff] using hne
    have hlen : 0 < F.length := List.length_pos.mpr hFne
    have hcond : ((F.map (fun d => (d, calculate_text_relevance q d.page_content))).isEmpty) = false := by
      simp [List.isEmpty_iff, hFne]
    have hgt : ∀ x ∈ F.map (fun d => calculate_text_relevance q d.page_content), (0.2 : ℚ) < x := by
      intro x hxm
      obtain ⟨d, hd, rfl⟩ := List.mem_map.mp hxm
      have := (List.mem_filter.mp (hF ▸ hd)).2
      simpa using of_decide_eq_true this
    have hle : ∀ x ∈ F.map (fun d => calculate_text_relevance q d.page_content), x ≤ 1 := by
      intro x hxm
      obtain ⟨d, hd, rfl⟩ := List.mem_map.mp hxm
      exact calculate_text_relevance_le_one q d.page_content
    have hmapne : F.map (fun d => calculate_text_relevance q d.page_content) ≠ [] := by
      simpa using hFne
    have hsum := list_sum_gt_of_forall_gt 0.2 _ hmapne hgt
    have hsum2 := list_sum_le_length _ hle
    rw [if_neg (by simp [hcond])]
    have hlenmap : ((F.map (fun d => (d, calculate_text_relevance q d.page_content))).length : ℚ)
        = (F.length : ℚ) := by simp
    have hlenmap2 : ((F.map (fun d => calculate_text_relevance q d.page_content)).length : ℚ)
        = (F.length : ℚ) := by simp
    have hlenq : (0 : ℚ) < (F.length : ℚ) := by exact_mod_cast hlen
    constructor
    · rw [hlenmap, lt_div_iff₀ hlenq]
      rw [← hlenmap2] at hlenq ⊢
      exact hsum
    · rw [hlenmap, div_le_one hlenq]
      rw [← hlenmap2]
      exact hsum2

/-- The result record of the concrete C10 witness run. -/
def wRes10 : RagResult :=
  ⟨"ans", [mkPdfCitation 1 ⟨"alpha only", none, none⟩ (1/2)], 1, 0, 0, 1/2, 1, 1, 0, false⟩

unseal Rat.mul Rat.inv Rat.add Rat.sub Nat.gcd Rat.ofScientific in
set_option maxRecDepth 10000 in
/-- Witness for C10: a run keeping one chunk with relevance 1/2 reports a
score of 1/2, which is greater than 0.2 and at most 1. -/
theorem pdf_score_gap_witness :
    query_rag "pdf alpha" (Except.ok [⟨"alpha only", none, none⟩])
        (Except.ok []) (Except.ok "") (Except.ok "ans") = Except.ok wRes10 ∧
    (wRes10.pdf_relevance_score = 0 ∨
      (0.2 < wRes10.pdf_relevance_score ∧ wRes10.pdf_relevance_score ≤ 1)) :=
  ⟨by decide,
   pdf_score_gap "pdf alpha" (Except.ok [⟨"alpha only", none, none⟩])
     (Except.ok []) (Except.ok "") (Except.ok "ans") wRes10 (by decide)⟩

/-! ### Claim C2: adapter failure isolation -/

theorem aggregate_drive_error_eq (q : String) (docs : List Doc) (wR : Except String String)
    (e : String) :
    aggregate q docs (Except.error e) wR = aggregate q docs (Except.ok []) wR := by
  unfold aggregate
  simp only [driveStep_empty_of_error, driveStep_empty_of_ok_nil]

theorem aggregate_web_error_eq (q : String) (docs : List Doc)
    (drR : Except String (List DriveFile)) (e : String) :
    aggregate q docs drR (Except.error e) = aggregate q docs drR (Except.ok "") := by
  unfold aggregate
  simp only [webStep_empty_of_error, webStep_empty_of_ok_nil]

theorem aggregate_drive_results_error (q : String) (docs : List Doc)
    (wR : Except String String) (e : String) :
    (aggregate q docs (Except.error e) wR).drive_results = [] := by
  unfold aggregate
  simp only [driveStep_empty_of_error]

theorem aggregate_web_context_error (q : String) (docs : List Doc)
    (drR : Except String (List DriveFile)) (e : String) :
    (aggregate q docs drR (Except.error e)).web_context = "" := by
  unfold aggregate
  simp only [webStep_empty_of_error]

theorem aggregate_types_no_drive (q : String) (docs : List Doc) (wR : Except String String) :
    ∀ x ∈ (aggregate q docs (Except.ok []) wR).citations,
      x.type = "pdf" ∨ x.type = "web" := by
  unfold aggregate
  dsimp only
  rw [driveStep_empty_of_ok_nil]
  obtain ⟨a, ha, hat⟩ := pdfCits_split (pdfScan q docs).1 []
  obtain ⟨cw, hcw, hcwt⟩ := webStep_split q wR
    (selectSources (if (pdfScan q docs).1.isEmpty then 0
      else (pdfScan q docs).2 / ((pdfScan q docs).1.length : ℚ)) q).1
    (pdfCits (pdfScan q docs).1 [])
  intro x hx
  rw [hcw] at hx
  rcases List.mem_append.mp hx with h | h
  · left
    rw [ha] at h
    simp only [List.nil_append] at h
    exact hat x h
  · right
    exact hcwt x h

theorem aggregate_types_no_web (q : String) (docs : List Doc)
    (drR : Except String (List DriveFile)) :
    ∀ x ∈ (aggregate q docs drR (Except.ok "")).citations,
      x.type = "pdf" ∨ x.type = "google_drive" := by
  unfold aggregate
  dsimp only
  rw [webStep_empty_of_ok_nil]
  obtain ⟨a, ha, hat⟩ := pdfCits_split (pdfScan q docs).1 []
  obtain ⟨b, hb, hbt⟩ := driveStep_split q drR
    (selectSources (if (pdfScan q docs).1.isEmpty then 0
      else (pdfScan q docs).2 / ((pdfScan q docs).1.length : ℚ)) q).2
    (pdfCits (pdfScan q docs).1 [])
  intro x hx
  dsimp only at hx
  rw [hb] at hx
  rcases List.mem_append.mp hx with h | h
  · left
    rw [ha] at h
    simp only [List.nil_append] at h
    exact hat x h
  · right
    exact hbt x h

theorem query_rag_drive_error_eq (q : String) (docR : Except String (List Doc))
    (wR llmR : Except String String) (e : String) :
    query_rag q docR (Except.error e) wR llmR = query_rag q docR (Except.ok []) wR llmR := by
  unfold query_rag buildResult
  cases hx : (if is_external_query q then Except.ok ([] : List Doc) else docR) with
  | error e2 => rfl
  | ok docs => simp only [aggregate_drive_error_eq]

theorem query_rag_web_error_eq (q : String) (docR : Except String (List Doc))
    (drR : Except String (List DriveFile)) (llmR : Except String String) (e : String) :
    query_rag q docR drR (Except.error e) llmR = query_rag q docR drR (Except.ok "") llmR := by
  unfold query_rag buildResult
  cases hx : (if is_external_query q then Except.ok ([] : List Doc) else docR) with
  | error e2 => rfl
  | ok docs => simp only [aggregate_web_error_eq]

unseal Rat.mul Rat.inv Rat.add Rat.sub Nat.gcd Rat.ofScientific in
/-- Claim C2, counterexample: for the non-external query `"revenue"`, an
error raised by the Document Index Adapter propagates out of `query_rag`
(the `similarity_search` call on line 100 is not wrapped in `try`/`except`),
so it is not true that an adapter exception never escapes the aggregation. -/
theorem adapter_failure_counterexample :
    query_rag "revenue" (Except.error "index down") (Except.ok []) (Except.ok "")
        (Except.ok "ok")
      = Except.error "index down" := by decide

/-- Claim C2 (amended): if the Cloud File Adapter or the Web Search Adapter
raises, `query_rag` still returns a normal result in which that source
contributes zero evidence and zero citations (per-source count 0, no
citation of its type) and the rest of the result is exactly what it would be
had that adapter returned an empty result — but an error from the Document
Index Adapter is not caught and propagates out of `query_rag`. -/
theorem adapter_failure_isolation :
    (∀ (q : String) (docR : Except String (List Doc)) (wR llmR : Except String String)
       (e : String),
       query_rag q docR (Except.error e) wR llmR = query_rag q docR (Except.ok []) wR llmR ∧
       (∀ r : RagResult, query_rag q docR (Except.error e) wR llmR = Except.ok r →
         r.google_drive_docs = 0 ∧ r.relevant_drive_docs = 0 ∧
         ∀ c ∈ r.citations, c.type ≠ "google_drive")) ∧
    (∀ (q : String) (docR : Except String (List Doc)) (drR : Except String (List DriveFile))
       (llmR : Except String String) (e : String),
       query_rag q docR drR (Except.error e) llmR = query_rag q docR drR (Except.ok "") llmR ∧
       (∀ r : RagResult, query_rag q docR drR (Except.error e) llmR = Except.ok r →
         r.web_search = 0 ∧ r.web_search_used = false ∧
         ∀ c ∈ r.citations, c.type ≠ "web")) := by
  constructor
  · intro q docR wR llmR e
    refine ⟨query_rag_drive_error_eq q docR wR llmR e, ?_⟩
    intro r h
    obtain ⟨docs, hx, hr⟩ := query_rag_ok_elim h
    subst hr
    refine ⟨?_, ?_, ?_⟩
    · show (aggregate q docs (Except.error e) wR).drive_results.length = 0
      rw [aggregate_drive_results_error]
      rfl
    · show (aggregate q docs (Except.error e) wR).drive_results.length = 0
      rw [aggregate_drive_results_error]
      rfl
    · intro c hc
      have hmem : c ∈ (aggregate q docs (Except.error e) wR).citations :=
        (validateCitations_mem _ _ c).mp hc
      rw [aggregate_drive_error_eq] at hmem
      rcases aggregate_types_no_drive q docs wR c hmem with h1 | h1 <;> simp [h1]
  · intro q docR drR llmR e
    refine ⟨query_rag_web_error_eq q docR drR llmR e, ?_⟩
    intro r h
    obtain ⟨docs, hx, hr⟩ := query_rag_ok_elim h
    subst hr
    refine ⟨?_, ?_, ?_⟩
    · show (if (aggregate q docs drR (Except.error e)).web_context = "" then 0 else 1) = 0
      rw [aggregate_web_context_error]
      rfl
    · show decide ((aggregate q docs drR (Except.error e)).web_context ≠ "") = false
      rw [aggregate_web_context_error]
      decide
    · intro c hc
      have hmem : c ∈ (aggregate q docs drR (Except.error e)).citations :=
        (validateCitations_mem _ _ c).mp hc
      rw [aggregate_web_error_eq] at hmem
      rcases aggregate_types_no_web q docs drR c hmem with h1 | h1 <;> simp [h1]

unseal Rat.mul Rat.inv Rat.add Rat.sub Nat.gcd Rat.ofScientific in
/-- Witness for C2 (amended) at concrete inputs: with the Drive adapter
failing (and separately the web adapter failing) on the external query
`"weather"`, the run still returns normally, equal to the corresponding
empty-adapter run, and the failed source's count is 0. -/
theorem adapter_failure_isolation_witness :
    query_rag "weather" (Except.ok []) (Except.error "drive down") (Except.ok "") (Except.ok "a")
        = query_rag "weather" (Except.ok []) (Except.ok []) (Except.ok "") (Except.ok "a") ∧
    (⟨"a", [], 0, 0, 0, 0, 0, 0, 0, false⟩ : RagResult).google_drive_docs = 0 ∧
    query_rag "weather" (Except.ok []) (Except.ok []) (Except.error "web down") (Except.ok "a")
        = query_rag "weather" (Except.ok []) (Except.ok []) (Except.ok "") (Except.ok "a") :=
  ⟨(adapter_failure_isolation.1 "weather" (Except.ok []) (Except.ok "") (Except.ok "a")
      "drive down").1,
   ((adapter_failure_isolation.1 "weather" (Except.ok []) (Except.ok "")
      (Except.ok "a") "drive down").2 ⟨"a", [], 0, 0, 0, 0, 0, 0, 0, false⟩ (by decide)).1,
   (adapter_failure_isolation.2 "weather" (Except.ok []) (Except.ok []) (Except.ok "a")
      "web down").1⟩

/-! ### Claim C3: the citation validator -/

/-- A citation value used twice in the C3 counterexample list. -/
def dupCit : Citation :=
  { citation := "[1]", page := "N/A", image := none, type := "pdf",
    url := none, content := "x", name := none, relevance := 1 }

unseal Rat.mul Rat.inv Rat.add Rat.sub Nat.gcd Rat.ofScientific in
/-- Claim C3, counterexample: on an input list containing the same citation
value twice, the validator's membership test (`not in` on dict values,
line 288/295) drops the second copy, so the output length is 1, not 2 — the
claimed length equality fails for arbitrary citation lists. -/
theorem validator_length_counterexample :
    ¬ ((validateCitations "no markers here" [dupCit, dupCit]).length
        = ([dupCit, dupCit] : List Citation).length) := by decide

/-- Claim C3 (amended): for every answer text and every citation list with
pairwise-distinct entries (which is the case for every list the Aggregator
builds, since the stored markers differ), the validator returns every input
citation exactly once — the output is duplicate-free, has the same length
and the same members as the input — and is structured as the marker-mentioned
citations (first-occurrence order, duplicates and out-of-range markers
skipped, as computed by `validateFirstPass`) followed by the remaining
citations in original order. -/
theorem validator_permutation (text : String) (cits : List Citation) (h : cits.Nodup) :
    (validateCitations text cits).length = cits.length ∧
    (validateCitations text cits).Nodup ∧
    (∀ c, c ∈ validateCitations text cits ↔ c ∈ cits) ∧
    validateCitations text cits =
      validateFirstPass (findMarkers text.data) cits ++
        cits.filter (fun c => decide (c ∉ validateFirstPass (findMarkers text.data) cits)) := by
  have hperm := validateCitations_perm text cits h
  refine ⟨hperm.length_eq, ?_, fun c => validateCitations_mem text cits c, ?_⟩
  · exact hperm.symm.nodup h
  · unfold validateCitations
    exact appendMissing_eq cits h _

/-- Scenario D citation 1. -/
def scenCit1 : Citation := mkPdfCitation 1 ⟨"one", some "1", none⟩ 1

/-- Scenario D citation 2. -/
def scenCit2 : Citation := mkPdfCitation 2 ⟨"two", some "2", none⟩ 1

/-- Scenario D citation 3. -/
def scenCit3 : Citation := mkPdfCitation 3 ⟨"three", some "3", none⟩ 1

unseal Rat.mul Rat.inv Rat.add Rat.sub Nat.gcd Rat.ofScientific in
/-- Witness for C3 (amended), the spec's Scenario D: text
`"Revenue grew [1] and so did users [3]."` with three distinct citations
yields `[citations[0], citations[2], citations[1]]` and keeps length 3. -/
theorem validator_permutation_witness :
    ([scenCit1, scenCit2, scenCit3] : List Citation).Nodup ∧
    (validateCitations "Revenue grew [1] and so did users [3]."
        [scenCit1, scenCit2, scenCit3]).length = 3 ∧
    validateCitations "Revenue grew [1] and so did users [3]."
        [scenCit1, scenCit2, scenCit3] = [scenCit1, scenCit3, scenCit2] :=
  ⟨by decide,
   (validator_permutation "Revenue grew [1] and so did users [3]."
       [scenCit1, scenCit2, scenCit3] (by decide)).1.trans rfl,
   by decide⟩

/-! ### Claim C4: dense citation indices and validator index preservation -/

/-- Claim C4: the citation list built by the aggregation phase carries the
dense 1-based markers `"[1]", ..., "[n]"` in creation order with no gaps,
regardless of which sources were skipped; it is structured as the PDF block,
then the Google Drive block, then the web block; and the Citation Validator
never changes any citation's stored marker — every output element is an
element of the input list, unchanged. -/
theorem citation_indices_dense (q : String) (docs : List Doc)
    (drR : Except String (List DriveFile)) (wR : Except String String) :
    ((aggregate q docs drR wR).citations.map (fun c => c.citation) =
      markersList (aggregate q docs drR wR).citations.length) ∧
    (∃ a b c, (aggregate q docs drR wR).citations = a ++ b ++ c ∧
      (∀ x ∈ a, x.type = "pdf") ∧ (∀ x ∈ b, x.type = "google_drive") ∧
      (∀ x ∈ c, x.type = "web")) ∧
    (∀ (text : String) (x : Citation),
      x ∈ validateCitations text (aggregate q docs drR wR).citations →
      x ∈ (aggregate q docs drR wR).citations) :=
  ⟨aggregate_citations_markers q docs drR wR, aggregate_citations_split q docs drR wR,
   fun _ x hx => (validateCitations_mem _ _ x).mp hx⟩

unseal Rat.mul Rat.inv Rat.add Rat.sub Nat.gcd Rat.ofScientific in
/-- Witness for C4: a run whose PDF search keeps nothing but whose Drive and
web searches each contribute one citation numbers them `"[1]"`, `"[2]"` with
no gap, and the validator only selects from them. -/
theorem citation_indices_dense_witness :
    (aggregate "alpha" [⟨"zzz", none, none⟩] (Except.ok [⟨"alpha", "alpha", "u"⟩])
        (Except.ok "alpha stuff")).citations.map (fun c => c.citation)
      = ["[1]", "[2]"] ∧
    mkDriveCitation 1 ⟨"alpha", "alpha", "u"⟩ 1
      ∈ (aggregate "alpha" [⟨"zzz", none, none⟩] (Except.ok [⟨"alpha", "alpha", "u"⟩])
          (Except.ok "alpha stuff")).citations :=
  ⟨(citation_indices_dense "alpha" [⟨"zzz", none, none⟩]
      (Except.ok [⟨"alpha", "alpha", "u"⟩]) (Except.ok "alpha stuff")).1.trans (by decide),
   (citation_indices_dense "alpha" [⟨"zzz", none, none⟩]
      (Except.ok [⟨"alpha", "alpha", "u"⟩]) (Except.ok "alpha stuff")).2.2 "t"
     (mkDriveCitation 1 ⟨"alpha", "alpha", "u"⟩ 1) (by decide)⟩

/-! ### Claim C9: fallback on generation failure -/

/-- Drive file used in the C9 counterexample. -/
def cxDrive1 : DriveFile := { name := "a", content := "a", url := "u" }

/-- Second drive file used in the C9 counterexample. -/
def cxDrive2 : DriveFile := { name := "a", content := "ab", url := "v" }

unseal Rat.mul Rat.inv Rat.add Rat.sub Nat.gcd Rat.ofScientific in
set_option maxRecDepth 10000 in
/-- Claim C9, counterexample: with two Drive citations available, a
generation failure yields the citations in original aggregation order
(the fallback text mentions no markers), while a successful generation whose
answer cites `[2]` yields them reordered — so the `citations` field is NOT
always the same as it would be on generation success. -/
theorem generation_fallback_counterexample :
    (query_rag "a" (Except.ok []) (Except.ok [cxDrive1, cxDrive2]) (Except.ok "")
        (Except.error "x")).toOption.map (fun r => r.citations)
      ≠ (query_rag "a" (Except.ok []) (Except.ok [cxDrive1, cxDrive2]) (Except.ok "")
        (Except.ok "See [2].")).toOption.map (fun r => r.citations) := by decide

/-- Claim C9 (amended): if the Answer Generator raises, `query_rag` does not
propagate the failure: it returns a normal result whose `response` is the
fallback message reporting the number of citations the Aggregator built, and
whose `sources_used` and `relevance_info` fields are exactly those of a
successful run over the same adapter results; the `citations` field contains
exactly the same citations as any such successful run, though possibly in a
different order (the fallback run lists them in original aggregation order,
a success run in the order its answer text cites them). -/
theorem generation_fallback (q : String) (docR : Except String (List Doc))
    (drR : Except String (List DriveFile)) (wR : Except String String)
    (e a : String) (r r2 : RagResult)
    (h1 : query_rag q docR drR wR (Except.error e) = Except.ok r)
    (h2 : query_rag q docR drR wR (Except.ok a) = Except.ok r2) :
    (∃ docs, (if is_external_query q then Except.ok [] else docR) = Except.ok docs ∧
       r.response = fallbackMessage (aggregate q docs drR wR).citations.length) ∧
    r.pdf_documents = r2.pdf_documents ∧
    r.google_drive_docs = r2.google_drive_docs ∧
    r.web_search = r2.web_search ∧
    r.pdf_relevance_score = r2.pdf_relevance_score ∧
    r.total_pdf_chunks_found = r2.total_pdf_chunks_found ∧
    r.relevant_pdf_chunks = r2.relevant_pdf_chunks ∧
    r.relevant_drive_docs = r2.relevant_drive_docs ∧
    r.web_search_used = r2.web_search_used ∧
    (∀ c, c ∈ r.citations ↔ c ∈ r2.citations) := by
  obtain ⟨docs, hx, hr⟩ := query_rag_ok_elim h1
  obtain ⟨docs2, hx2, hr2⟩ := query_rag_ok_elim h2
  rw [hx] at hx2
  have heq : docs = docs2 := Except.ok.inj hx2
  rw [← heq] at hr2
  subst hr
  subst hr2
  refine ⟨⟨docs, hx, rfl⟩, rfl, rfl, rfl, rfl, rfl, rfl, rfl, rfl, ?_⟩
  intro c
  exact (validateCitations_mem _ _ c).trans (validateCitations_mem _ _ c).symm

unseal Rat.mul Rat.inv Rat.add Rat.sub Nat.gcd Rat.ofScientific in
set_option maxRecDepth 10000 in
/-- Witness for C9 (amended) at a concrete external query with no evidence:
the fallback run returns the zero-citation fallback message and the same
degraded fields as the success run. -/
theorem generation_fallback_witness :
    query_rag "weather" (Except.ok []) (Except.ok []) (Except.ok "") (Except.error "boom")
        = Except.ok ⟨fallbackMessage 0, [], 0, 0, 0, 0, 0, 0, 0, false⟩ ∧
    query_rag "weather" (Except.ok []) (Except.ok []) (Except.ok "") (Except.ok "fine")
        = Except.ok ⟨"fine", [], 0, 0, 0, 0, 0, 0, 0, false⟩ ∧
    (⟨fallbackMessage 0, [], 0, 0, 0, 0, 0, 0, 0, false⟩ : RagResult).web_search_used
        = (⟨"fine", [], 0, 0, 0, 0, 0, 0, 0, false⟩ : RagResult).web_search_used :=
  ⟨by decide, by decide,
   (generation_fallback "weather" (Except.ok []) (Except.ok []) (Except.ok "") "boom" "fine"
      ⟨fallbackMessage 0, [], 0, 0, 0, 0, 0, 0, 0, false⟩
      ⟨"fine", [], 0, 0, 0, 0, 0, 0, 0, false⟩
      (by decide) (by decide)).2.2.2.2.2.2.2.2.1⟩
